import Mathlib

/-!
Shallow embedding of `scripts/statusline.js` (ContextBricks status line,
v4.3.0) and proofs about the claims of its specification.

Modelling conventions:
* JS values reachable from `JSON.parse` (plus `undefined`) are `JVal`.
* JS numbers are exact rationals.  A computed number that may be `NaN` is an
  `Option ℚ` with `none` playing the role of `NaN` (JSON literals are finite
  decimals, so stored numbers are never `NaN`; overflow to `Infinity` is a
  floating-point artefact that is not modelled).
* External collaborators (git subprocesses, the network fetch, the clock,
  `Date` parsing, the file system) are explicit oracle parameters, mirroring
  how the script consumes their outputs.
* Code points where the script can throw a `TypeError` are modelled with
  `Except Unit`; everything the script guards with `try`/`catch` or type
  checks is total.
-/

namespace Statusline

/-- JSON values as produced by `JSON.parse`, together with `undefined`. -/
inductive JVal where
| undefined : JVal
| jnull : JVal
| jbool : Bool → JVal
| num : ℚ → JVal
| str : String → JVal
| arr : List JVal → JVal
| obj : List (String × JVal) → JVal

/-- JS truthiness (`Boolean(v)`). -/
def jsTruthy : JVal → Bool
| .undefined => false
| .jnull => false
| .jbool b => b
| .num q => if q = 0 then false else true
| .str s => if s = "" then false else true
| .arr _ => true
| .obj _ => true

/-- Split a character list at every occurrence of `sep` (JS `String.split`). -/
def splitChar (sep : Char) : List Char → List (List Char)
| [] => [[]]
| c :: rest =>
  if c = sep then [] :: splitChar sep rest
  else
    match splitChar sep rest with
    | g :: gs => (c :: g) :: gs
    | [] => [[c]]

/-- Numeric value of a decimal digit character, if it is one. -/
def digitVal? (c : Char) : Option ℕ :=
  if '0' ≤ c ∧ c ≤ '9' then some (c.toNat - 48) else none

/-- Value of a non-empty all-digit character list, `none` otherwise. -/
def digitsVal : List Char → Option ℕ
| [] => none
| cs =>
  cs.foldl
    (fun acc c =>
      match acc, digitVal? c with
      | some a, some d => some (a * 10 + d)
      | _, _ => none)
    (some 0)

/-- A canonical array index ("0", "7", "12", but not "01"). -/
def canonicalIndex? : List Char → Option ℕ
| [] => none
| ['0'] => some 0
| '0' :: _ => none
| cs => digitsVal cs

/-- First binding of `key` in an object's field list (`undefined` if absent). -/
def lookupField : List (String × JVal) → String → JVal
| [], _ => .undefined
| (k, v) :: rest, key => if k = key then v else lookupField rest key

/-- JS property access `v[key]` for the value shapes reachable here (property
access on `null`/`undefined` throws and is modelled explicitly by callers;
number/boolean primitives have no own properties consulted by the script). -/
def getField (v : JVal) (key : String) : JVal :=
  match v with
  | .obj fs => lookupField fs key
  | .arr xs =>
      if key = "length" then .num xs.length
      else
        match canonicalIndex? key.data with
        | some i => xs.getD i .undefined
        | none => .undefined
  | .str s => if key = "length" then .num s.length else .undefined
  | _ => .undefined

/-- Loop body of `getPath`: at each step the script returns `undefined` when
the current value `== null` or is not of object type. -/
def getPathGo : JVal → List String → JVal
| cur, [] => cur
| cur, p :: ps =>
  match cur with
  | .obj fs => getPathGo (lookupField fs p) ps
  | .arr xs => getPathGo (getField (.arr xs) p) ps
  | _ => .undefined

/-- `getPath(obj, 'a.b.c')` of statusline.js: safely traverse a dotted path. -/
def getPath (v : JVal) (dotPath : String) : JVal :=
  getPathGo v ((splitChar '.' dotPath.data).map (fun cs => ⟨cs⟩))

/-- JS `ToNumber` on strings (whitespace-trimmed decimal literals; exotic
forms — exponents, hex, "Infinity" — are not produced by the collaborators
modelled here and are mapped to `NaN`). -/
def strToNumber (s : String) : Option ℚ :=
  let ws : Char → Bool := fun c => c = ' ' ∨ c = '\t' ∨ c = '\n' ∨ c = '\r'
  let t := ((s.data.dropWhile ws).reverse.dropWhile ws).reverse
  if t.isEmpty then some 0
  else
    let core : ℚ × List Char :=
      match t with
      | '-' :: rest => (-1, rest)
      | '+' :: rest => (1, rest)
      | _ => (1, t)
    match splitChar '.' core.2 with
    | [ip] => (digitsVal ip).map (fun n => core.1 * n)
    | [ip, fp] =>
        if ip.isEmpty && fp.isEmpty then none
        else
          let ipv : Option ℚ :=
            if ip.isEmpty then some 0 else (digitsVal ip).map (fun n => (n : ℚ))
          let fpv : Option ℚ :=
            if fp.isEmpty then some 0
            else (digitsVal fp).map (fun n => (n : ℚ) / 10 ^ fp.length)
          match ipv, fpv with
          | some a, some b => some (core.1 * (a + b))
          | _, _ => none
    | _ => none

/-- JS `ToNumber`, `none` = `NaN`.  (A one-element array coerces through its
single element, approximating `Number(String([x]))`.) -/
def jsToNumber : JVal → Option ℚ
| .undefined => none
| .jnull => some 0
| .jbool b => some (if b then 1 else 0)
| .num q => some q
| .str s => strToNumber s
| .arr [] => some 0
| .arr [x] => jsToNumber x
| .arr (_ :: _ :: _) => none
| .obj _ => none

/-- `Number(v) || d`: the fallback is used on `NaN` and on `0`. -/
def numOr (v : Option ℚ) (d : ℚ) : ℚ :=
  match v with
  | some q => if q = 0 then d else q
  | none => d

/-- `Math.floor` on a possibly-`NaN` number. -/
def jsFloor (v : Option ℚ) : Option ℤ := v.map (fun q => ⌊q⌋)

/-- `Math.round` on a possibly-`NaN` number (JS rounds half toward +∞). -/
def jsRound (v : Option ℚ) : Option ℤ := v.map (fun q => ⌊q + 1 / 2⌋)

/-- Decimal digit character for `n % 10` style arguments below 10. -/
def digitCh (n : ℕ) : Char :=
  match n with
  | 0 => '0' | 1 => '1' | 2 => '2' | 3 => '3' | 4 => '4'
  | 5 => '5' | 6 => '6' | 7 => '7' | 8 => '8' | _ => '9'

/-- Fuel-driven decimal printer (fuel `n + 1` always suffices). -/
def natToCharsAux : ℕ → ℕ → List Char
| 0, _ => []
| fuel + 1, n =>
  if n < 10 then [digitCh n] else natToCharsAux fuel (n / 10) ++ [digitCh (n % 10)]

/-- Decimal string of a natural number. -/
def natStr (n : ℕ) : String := ⟨natToCharsAux (n + 1) n⟩

/-- Decimal string of an integer (JS integral Number→String). -/
def intStr (i : ℤ) : String := if i < 0 then "-" ++ natStr i.natAbs else natStr i.natAbs

/-- Left-pad a string with zeros to the given length. -/
def padZeros (len : ℕ) (s : String) : String :=
  ⟨List.replicate (len - s.data.length) '0' ++ s.data⟩

/-- JS Number→String: exact for integers; finite decimals print their shortest
exact expansion (every double is a finite decimal; a rational whose reduced
denominator is divisible by a prime other than 2 and 5 cannot arise from a
double and prints as "?"). -/
def qStr (q : ℚ) : String :=
  let sign := if q < 0 then "-" else ""
  let a := if q < 0 then -q else q
  if a.den = 1 then sign ++ natStr a.num.toNat
  else
    match (List.range 40).find? (fun k => ((10 : ℚ) ^ (k + 1) * a).den = 1) with
    | some k =>
        let scaled := ((10 : ℚ) ^ (k + 1) * a).num.toNat
        sign ++ natStr (scaled / 10 ^ (k + 1)) ++ "." ++
          padZeros (k + 1) (natStr (scaled % 10 ^ (k + 1)))
    | none => sign ++ "?"

/-- Integral possibly-`NaN` number to string (template-literal interpolation). -/
def jnumIntStr (v : Option ℤ) : String :=
  match v with
  | some i => intStr i
  | none => "NaN"

/-- `costUsd.toFixed(2)` for the nonnegative finite values it is applied to
(ECMA: nearest hundredth, ties toward the larger candidate). -/
def toFixed2 (q : ℚ) : String :=
  let n := (⌊q * 100 + 1 / 2⌋).toNat
  natStr (n / 100) ++ "." ++ padZeros 2 (natStr (n % 100))

/-! ### ANSI color constants (the `c` object of statusline.js) -/

def cReset : String := "\x1b[0m"
def cBold : String := "\x1b[1m"
def cDim : String := "\x1b[2m"
def cCyan : String := "\x1b[1;36m"
def cGreen : String := "\x1b[1;32m"
def cBlue : String := "\x1b[1;34m"
def cRed : String := "\x1b[1;31m"
def cYellow : String := "\x1b[1;33m"
def cDimWhite : String := "\x1b[2;37m"
def cGreenNorm : String := "\x1b[0;32m"
def cRedNorm : String := "\x1b[0;31m"
def cCyanNorm : String := "\x1b[0;36m"
def cYellowNorm : String := "\x1b[0;33m"

/-! ### `stripAnsi` / `visibleLen`

`stripAnsi` is `s.replace(/\x1b\[[0-9;]*m/g, '')` realised as a left-to-right
scanner: a match is ESC `[`, a maximal run of digits and semicolons, then `m`;
on a failed candidate the buffered characters are emitted and scanning resumes
at the character that broke the candidate (which, matching the regex engine,
may itself begin a new escape). -/

/-- A character allowed in the body of a CSI color sequence. -/
def isBodyChar (ch : Char) : Bool := ('0' ≤ ch && ch ≤ '9') || ch = ';'

/-- Scanner state: nothing pending / pending ESC / pending ESC `[` body. -/
inductive AnsiSt where
| normal : AnsiSt
| esc : AnsiSt
| body : List Char → AnsiSt

/-- Characters buffered by a pending (incomplete) escape candidate. -/
def stFlush : AnsiSt → List Char
| .normal => []
| .esc => ['\x1b']
| .body acc => '\x1b' :: '[' :: acc

/-- One scanner step: emitted characters and the next state. -/
def stStep (st : AnsiSt) (ch : Char) : List Char × AnsiSt :=
  match st with
  | .normal => if ch = '\x1b' then ([], .esc) else ([ch], .normal)
  | .esc =>
      if ch = '[' then ([], .body [])
      else if ch = '\x1b' then (['\x1b'], .esc)
      else (['\x1b', ch], .normal)
  | .body acc =>
      if isBodyChar ch then ([], .body (acc ++ [ch]))
      else if ch = 'm' then ([], .normal)
      else if ch = '\x1b' then (stFlush (.body acc), .esc)
      else (stFlush (.body acc) ++ [ch], .normal)

/-- Run the scanner; a pending candidate at end of input is emitted. -/
def stripRun (st : AnsiSt) : List Char → List Char
| [] => stFlush st
| ch :: rest => (stStep st ch).1 ++ stripRun (stStep st ch).2 rest

/-- `stripAnsi` of statusline.js. -/
def stripAnsi (s : String) : String := ⟨stripRun .normal s.data⟩

/-- `visibleLen` of statusline.js: length with ANSI color codes excluded. -/
def visibleLen (s : String) : ℕ := (stripAnsi s).data.length

/-! ### Rate-limit color gradient and reset-time formatting -/

/-- The 11-stop 256-color gradient green → yellow → red. -/
def gradient : List ℕ := [46, 82, 118, 154, 190, 226, 220, 214, 208, 202, 196]

/-- Gradient stop index chosen for a (numeric) utilization percentage:
`Math.min(Math.round(clamped / 10), gradient.length - 1)` after clamping to
[0, 100]. -/
def colorIdx (pct : ℚ) : ℤ :=
  let clamped := max 0 (min 100 pct)
  min ⌊clamped / 10 + 1 / 2⌋ ((gradient.length : ℤ) - 1)

/-- `getColorForUtilization` of statusline.js.  Its argument is the result of
JS coercion of the raw utilization value (`none` = `NaN`, in which case the
index computation yields `NaN` and `gradient[NaN]` is `undefined`). -/
def getColorForUtilization (pct : Option ℚ) : String :=
  match pct with
  | some q => "\x1b[38;5;" ++ natStr (gradient.getD (colorIdx q).toNat 0) ++ "m"
  | none => "\x1b[38;5;undefinedm"

/-- `formatResetTime` of statusline.js.  `parseDate` is the `new Date(x)`
collaborator (`none` = invalid date, i.e. `NaN` milliseconds); `now` is
`Date.now()`.  With a `NaN` delta every comparison is false and both modes
fall through to the days branch, printing "NaNd". -/
def formatResetTime (isoVal : JVal) (parseDate : JVal → Option ℚ) (now : ℚ)
    (exact : Bool) : String :=
  if jsTruthy isoVal = false then ""
  else
    match parseDate isoVal with
    | none => "NaNd"
    | some resetMs =>
      let diffMs := resetMs - now
      if diffMs ≤ 0 then "0m"
      else
        let totalMin : ℤ := ⌊diffMs / 60000⌋
        let totalHours : ℤ := totalMin / 60
        let remainMin : ℤ := totalMin % 60
        let days : ℤ := totalHours / 24
        let remainHours : ℤ := totalHours % 24
        if exact = false then
          if totalMin < 60 then intStr totalMin ++ "m"
          else if totalHours < 24 then intStr totalHours ++ "h"
          else intStr days ++ "d"
        else
          if totalMin < 60 then intStr totalMin ++ "m"
          else if totalHours < 24 then
            if remainMin > 0 then intStr totalHours ++ "h" ++ intStr remainMin ++ "m"
            else intStr totalHours ++ "h"
          else if remainHours > 0 then intStr days ++ "d" ++ intStr remainHours ++ "h"
          else intStr days ++ "d"

/-- `v == null` (loose equality: `null` or `undefined`). -/
def isNullish : JVal → Bool
| .undefined => true
| .jnull => true
| _ => false

/-- `buildLimitSegment` of statusline.js: one segment like "5h:23% ~1h30m". -/
def buildLimitSegment (data : JVal) (key label : String)
    (parseDate : JVal → Option ℚ) (now : ℚ) (exact : Bool) : Option String :=
  let pct := getPath data (key ++ ".utilization")
  if isNullish pct then none
  else
    let color := getColorForUtilization (jsToNumber pct)
    let resetStr := formatResetTime (getPath data (key ++ ".resets_at")) parseDate now exact
    let segment := cDimWhite ++ label ++ ":" ++ cReset ++ color ++
      jnumIntStr (jsRound (jsToNumber pct)) ++ "%" ++ cReset
    some (if resetStr = "" then segment
          else segment ++ " " ++ cDim ++ "~" ++ resetStr ++ cReset)

/-- `formatRateLimitLine` of statusline.js (the `.filter(Boolean)` removes the
absent segments; a produced segment is never the empty string). -/
def formatRateLimitLine (data : JVal) (parseDate : JVal → Option ℚ) (now : ℚ)
    (exact : Bool) : String :=
  if jsTruthy data = false then ""
  else
    let segments := [
      buildLimitSegment data "five_hour" "5h" parseDate now exact,
      buildLimitSegment data "seven_day" "7d" parseDate now exact,
      buildLimitSegment data "seven_day_sonnet" "sonnet" parseDate now exact,
      buildLimitSegment data "seven_day_opus" "opus" parseDate now exact
    ].filterMap id
    if segments.length > 0 then String.intercalate " | " segments else ""

/-! ### `fetchUsageData`

The cache file is modelled by its parse result (`none` = missing, unreadable
or unparsable — all land in the same `catch`); a write is modelled by the
JSON value written.  The fetch subprocess is an oracle `FetchOutcome`
describing the observable result of the `spawnSync` call at lines 207-240:
`spawnSync` reports timeouts, spawn errors and non-zero exits in its result
object without throwing, so inside the `try` only `JSON.parse` can throw. -/

/-- Observable outcome of the fetch subprocess. -/
inductive FetchOutcome where
| timeout : FetchOutcome
| exitNonzero : FetchOutcome
| emptyStdout : FetchOutcome
| invalidJson : FetchOutcome
| payload : JVal → FetchOutcome

/-- Result of `fetchUsageData`: the returned value, whether the subprocess was
spawned, and the cache file contents afterwards. -/
structure FetchResult where
  value : JVal
  networkCalled : Bool
  cacheAfter : Option JVal

/-- `CACHE_TTL_MS = 5 * 60 * 1000`. -/
def CACHE_TTL_MS : ℚ := 5 * 60 * 1000

/-- The fresh-cache check (lines 165-173): `cache.timestamp` must be truthy
and younger than the TTL; on success `cache.data` is returned.  A `null`
parse result makes `cache.timestamp` throw, which the `catch` swallows. -/
def freshCache (cache : Option JVal) (now : ℚ) : Option JVal :=
  match cache with
  | none => none
  | some .jnull => none
  | some cv =>
      let ts := getField cv "timestamp"
      if jsTruthy ts then
        match jsToNumber ts with
        | some t => if now - t < CACHE_TTL_MS then some (getField cv "data") else none
        | none => none
      else none

/-- The stale-cache fallback in the `catch` block (lines 233-239). -/
def staleCache (cache : Option JVal) : JVal :=
  match cache with
  | none => .jnull
  | some .jnull => .jnull
  | some cv => if jsTruthy (getField cv "data") then getField cv "data" else .jnull

/-- `fetchUsageData` of statusline.js.  `token` is `readOAuthToken()`'s result
(`none` = `null`); `cache` the parsed cache file; `outcome` the subprocess
oracle. -/
def fetchUsageData (input : JVal) (token : Option String) (cache : Option JVal)
    (now : ℚ) (outcome : FetchOutcome) : FetchResult :=
  let mockData := getPath input "_mock_rate_limits"
  if jsTruthy mockData then ⟨mockData, false, cache⟩
  else if token.isNone then ⟨.jnull, false, cache⟩
  else
    match freshCache cache now with
    | some d => ⟨d, false, cache⟩
    | none =>
      match outcome with
      | .timeout => ⟨.jnull, true, cache⟩
      | .exitNonzero => ⟨.jnull, true, cache⟩
      | .emptyStdout => ⟨.jnull, true, cache⟩
      | .invalidJson => ⟨staleCache cache, true, cache⟩
      | .payload v =>
          if jsTruthy v &&
             (jsTruthy (getField v "five_hour") || jsTruthy (getField v "seven_day") ||
              jsTruthy (getField v "seven_day_sonnet") || jsTruthy (getField v "seven_day_opus"))
          then ⟨v, true, some (.obj [("timestamp", .num now), ("data", v)])⟩
          else ⟨v, true, cache⟩

/-! ### POSIX path collaborators (`path.basename` / `dirname` / `resolve` /
`relative`, POSIX flavour, as used at lines 384-401) -/

/-- `path.posix.basename`: last non-empty component (trailing slashes
ignored); empty for the root. -/
def posixBasename (p : String) : String :=
  ⟨(((p.data.reverse.dropWhile (· = '/')).takeWhile (· ≠ '/')).reverse)⟩

/-- `path.posix.dirname`. -/
def posixDirname (p : String) : String :=
  let rev := ((p.data.reverse.dropWhile (· = '/')).dropWhile (· ≠ '/')).dropWhile (· = '/')
  if rev.isEmpty then
    (if p.data.head? = some '/' then "/" else ".")
  else ⟨rev.reverse⟩

/-- Does the path start with a slash? -/
def isAbsolute (p : String) : Bool :=
  match p.data with
  | '/' :: _ => true
  | _ => false

/-- Path normalisation: drop empty and `.` components, resolve `..`
(components above an absolute root vanish). -/
def normalizeParts : List String → List String :=
  List.foldl
    (fun acc part =>
      if part = "" ∨ part = "." then acc
      else if part = ".." then acc.dropLast
      else acc ++ [part]) []

/-- Slash-separated components of a path, normalised. -/
def pathParts (p : String) : List String :=
  normalizeParts ((splitChar '/' p.data).map (fun cs => ⟨cs⟩))

/-- `path.posix.resolve(base, p)` for an absolute `base` (the script always
passes the resolved working directory, which Node has made absolute). -/
def posixResolve (base p : String) : String :=
  let combined := if isAbsolute p then p else base ++ "/" ++ p
  "/" ++ String.intercalate "/" (pathParts combined)

/-- Length of the common prefix of two component lists. -/
def commonPrefixLen : List String → List String → ℕ
| a :: as, b :: bs => if a = b then 1 + commonPrefixLen as bs else 0
| _, _ => 0

/-- `path.posix.relative` for absolute arguments. -/
def posixRelative (fromP toP : String) : String :=
  let fp := pathParts fromP
  let tp := pathParts toP
  let k := commonPrefixLen fp tp
  String.intercalate "/" (List.replicate (fp.length - k) ".." ++ tp.drop k)

/-! ### Git-derived display facts -/

/-- Repo/worktree naming decided at lines 381-397: when the resolved git-dir
and git-common-dir differ the directory is a linked worktree, the worktree
keeps the top-level basename and the repo name becomes the basename of the
common dir's parent. -/
structure GitIdentity where
  repoName : String
  worktreeName : String
deriving DecidableEq

def gitIdentity (cwd gitDir toplevel commonDir : String) : GitIdentity :=
  if gitDir = "" then ⟨"", ""⟩
  else
    let repoName0 := if toplevel = "" then "" else posixBasename toplevel
    if commonDir = "" then ⟨repoName0, ""⟩
    else
      let resolvedGitDir := posixResolve cwd gitDir
      let resolvedCommonDir := posixResolve cwd commonDir
      if resolvedGitDir = resolvedCommonDir then ⟨repoName0, ""⟩
      else ⟨posixBasename (posixDirname resolvedCommonDir), repoName0⟩

/-- Trimmed stdout of each git subprocess consulted by `main` (empty string =
command failed or produced nothing, the `git()` wrapper's fallback). -/
structure GitFacts where
  gitDir : String
  toplevel : String
  branchOut : String
  commonDir : String
  commitShort : String
  commitMsg : String
  porcelain : String
  upstream : String
  aheadOut : String
  behindOut : String

/-! ### Line 1 segments and graceful degradation -/

/-- `.replace(/\\/g, '/')`. -/
def slashNorm (s : String) : String :=
  ⟨s.data.map (fun ch => if ch = '\\' then '/' else ch)⟩

/-- The tilde-compressed display path used when outside a repository
(lines 437-443). -/
def tildePath (cwd home : String) : String :=
  let displayPath := (slashNorm cwd).data
  let homeNorm := (slashNorm home).data
  if homeNorm.isPrefixOf displayPath then ⟨'~' :: displayPath.drop homeNorm.length⟩
  else ⟨displayPath⟩

/-- The six building blocks of Line 1 (lines 432-461). -/
structure Line1Parts where
  line1Core : String
  worktreeSegment : String
  branchSegment : String
  subdirSegment : String
  gitStatusSegment : String
  diffSegment : String

def mkLine1Parts (model repoName branch subDir gitStatus worktreeName : String)
    (showDir : Bool) (cwd home : String) (linesAdded linesRemoved : ℚ) : Line1Parts :=
  let core0 := cCyan ++ "[" ++ model ++ "]" ++ cReset ++ " "
  let core :=
    if repoName ≠ "" then core0 ++ cGreen ++ repoName ++ cReset
    else if showDir then core0 ++ cDim ++ tildePath cwd home ++ cReset
    else core0
  { line1Core := core
    worktreeSegment :=
      if worktreeName ≠ "" then cDim ++ "(wt:" ++ worktreeName ++ ")" ++ cReset else ""
    branchSegment :=
      if repoName ≠ "" ∧ branch ≠ "" then ":" ++ cBlue ++ branch ++ cReset else ""
    subdirSegment :=
      if repoName ≠ "" ∧ subDir ≠ "" then " " ++ cDim ++ subDir ++ cReset else ""
    gitStatusSegment :=
      if gitStatus ≠ "" then " " ++ cRed ++ gitStatus ++ cReset else ""
    diffSegment :=
      if linesAdded > 0 ∨ linesRemoved > 0 then
        " | " ++ cGreenNorm ++ "+" ++ qStr linesAdded ++ cReset ++ "/" ++
          cRedNorm ++ "-" ++ qStr linesRemoved ++ cReset
      else "" }

/-- `buildLine1` of statusline.js. -/
def buildLine1 (p : Line1Parts) (includeWorktree includeSubdir includeDiff : Bool) : String :=
  p.line1Core ++
  (if includeWorktree then p.worktreeSegment else "") ++
  p.branchSegment ++
  (if includeSubdir then p.subdirSegment else "") ++
  p.gitStatusSegment ++
  (if includeDiff then p.diffSegment else "")

/-- The degradation sequence of lines 474-486, verbatim (the outer guard and
the first re-check share their condition in the source). -/
def line1Render (p : Line1Parts) (maxWidth : ℚ) : String :=
  let l0 := buildLine1 p true true true
  if (visibleLen l0 : ℚ) > maxWidth then
    let l1 := if (visibleLen l0 : ℚ) > maxWidth then buildLine1 p true true false else l0
    let l2 := if (visibleLen l1 : ℚ) > maxWidth then buildLine1 p true false false else l1
    if (visibleLen l2 : ℚ) > maxWidth then buildLine1 p false false false else l2
  else l0

/-! ### Line 3 numbers -/

/-- `a - b` with `NaN` propagation. -/
def jnumSub (a b : Option ℚ) : Option ℚ :=
  match a, b with
  | some x, some y => some (x - y)
  | _, _ => none

/-- `a || b` on numbers (`NaN` and `0` both select `b`). -/
def jsOrQ (a b : Option ℚ) : Option ℚ :=
  match a with
  | some q => if q = 0 then b else a
  | none => b

/-- `Math.floor` keeping the rational carrier. -/
def jsFloorQ (v : Option ℚ) : Option ℚ := v.map (fun q => (⌊q⌋ : ℚ))

/-- Truncation toward zero (JS `ToIntegerOrInfinity`, `%` quotient). -/
def truncQ (q : ℚ) : ℤ := if q < 0 then -⌊-q⌋ else ⌊q⌋

/-- JS remainder `a % b` (sign of the dividend). -/
def jsMod (a b : ℚ) : ℚ := a - b * truncQ (a / b)

/-- Is the value the empty string (for the strict `!== ''` test)? -/
def isEmptyStr : JVal → Bool
| .str s => if s = "" then true else false
| _ => false

/-- Does `typeof v === 'object'` hold? -/
def isObjType : JVal → Bool
| .obj _ => true
| .arr _ => true
| .jnull => true
| _ => false

/-- The context-window numbers of lines 503-543. -/
structure Line3Nums where
  totalTokens : ℚ
  usagePct : Option ℚ
  usedTokens : Option ℚ
  freeTokens : Option ℚ
  freeK : Option ℤ

def line3Nums (input : JVal) : Line3Nums :=
  let totalTokens :=
    numOr (jsToNumber (getPath input "context_window.context_window_size")) 200000
  let usedPctRaw := getPath input "context_window.used_percentage"
  if isNullish usedPctRaw = false ∧ isEmptyStr usedPctRaw = false then
    let usagePct := jsFloorQ (jsToNumber usedPctRaw)
    let remainingPctRaw := getPath input "context_window.remaining_percentage"
    let remainingPct :=
      jsFloorQ (jsOrQ (jsToNumber remainingPctRaw) (jnumSub (some 100) usagePct))
    let usedTokens := jsFloorQ ((usagePct.map (totalTokens * ·)).map (· / 100))
    let freeTokens := jsFloorQ ((remainingPct.map (totalTokens * ·)).map (· / 100))
    { totalTokens := totalTokens
      usagePct := usagePct
      usedTokens := usedTokens
      freeTokens := freeTokens
      freeK := jsFloor (freeTokens.map (· / 1000)) }
  else
    let currentUsage := getPath input "context_window.current_usage"
    let usedTokens : ℚ :=
      if jsTruthy currentUsage ∧ isObjType currentUsage then
        numOr (jsToNumber (getField currentUsage "input_tokens")) 0 +
        numOr (jsToNumber (getField currentUsage "cache_creation_input_tokens")) 0 +
        numOr (jsToNumber (getField currentUsage "cache_read_input_tokens")) 0
      else 0
    let freeTokens := totalTokens - usedTokens
    let usagePct : ℚ :=
      if totalTokens > 0 then (⌊usedTokens * 100 / totalTokens⌋ : ℚ) else 0
    { totalTokens := totalTokens
      usagePct := some usagePct
      usedTokens := some usedTokens
      freeTokens := some freeTokens
      freeK := some ⌊freeTokens / 1000⌋ }

/-- `usedBricks` of line 546. -/
def usedBricksCalc (usedTokens totalTokens totalBricks : ℚ) : ℚ :=
  if totalTokens > 0 then (⌊usedTokens * totalBricks / totalTokens⌋ : ℚ) else 0

/-- `freeBricks` of line 547. -/
def freeBricksCalc (usedTokens totalTokens totalBricks : ℚ) : ℚ :=
  totalBricks - usedBricksCalc usedTokens totalTokens totalBricks

/-- Iterations of `for (let i = 0; i < count; i++)` for a JS number bound. -/
def jsLoopCount (v : Option ℚ) : ℕ :=
  match v with
  | some q => (⌈q⌉).toNat
  | none => 0

/-- Concatenate `n` copies of a string. -/
def strRepeat (n : ℕ) (s : String) : String := ⟨(List.replicate n s.data).flatten⟩

/-! ### The render pipeline (`main`, lines 341-591) -/

/-- Environment-derived configuration, resolved as in lines 347-366. -/
structure RenderCfg where
  showDir : Bool
  termWidth : ℚ
  rightPadding : ℚ
  bricksEnv : Option ℚ
  resetExact : Bool
  showLimits : Bool

/-- The four output lines (`line2`/`line4` are omitted when empty). -/
structure RenderOut where
  line1 : String
  line2 : Option String
  line3 : String
  line4 : Option String
deriving DecidableEq

/-- First occurrence split of `pat` inside a character list. -/
def findSplit (pat : List Char) : List Char → Option (List Char × List Char)
| [] => if pat.isEmpty then some ([], []) else none
| c :: rest =>
  if pat.isPrefixOf (c :: rest) then some ([], (c :: rest).drop pat.length)
  else
    match findSplit pat rest with
    | some (pre, post) => some (c :: pre, post)
    | none => none

/-- JS `String.prototype.replace(pat, repl)` with a string pattern: first
occurrence only. -/
def replaceFirst (s pat repl : String) : String :=
  match findSplit pat.data s.data with
  | some (pre, post) => ⟨pre⟩ ++ repl ++ ⟨post⟩
  | none => s

/-- Line 341: `(getPath(input, 'model.display_name') || 'Claude')
.replace('Claude ', '')`.  A truthy non-string (number, boolean, array,
object) reaches `.replace` and throws a `TypeError`. -/
def extractModel (input : JVal) : Except Unit String :=
  let v := getPath input "model.display_name"
  let w := if jsTruthy v then v else .str "Claude"
  match w with
  | .str s => .ok (replaceFirst s "Claude " "")
  | _ => .error ()

/-- Everything `main` renders after the model name is extracted.  `gf` are
the git collaborator outputs, `cwd` the resolved working directory, `home`
`os.homedir()`, `usageData` the value produced by `fetchUsageData`,
`parseDate`/`now` the clock collaborators. -/
def renderCore (modelStr : String) (input : JVal) (cfg : RenderCfg) (gf : GitFacts)
    (cwd home : String) (usageData : JVal) (parseDate : JVal → Option ℚ)
    (now : ℚ) : RenderOut :=
  let linesAdded := numOr (jsToNumber (getPath input "cost.total_lines_added")) 0
  let linesRemoved := numOr (jsToNumber (getPath input "cost.total_lines_removed")) 0
  let ident := gitIdentity cwd gf.gitDir gf.toplevel gf.commonDir
  let branch :=
    if gf.gitDir = "" then ""
    else if gf.branchOut = "" then "detached" else gf.branchOut
  let subDir :=
    if gf.gitDir ≠ "" ∧ cfg.showDir ∧ gf.toplevel ≠ "" then
      let rel := slashNorm (posixRelative gf.toplevel cwd)
      if rel ≠ "" ∧ rel ≠ "." then rel else ""
    else ""
  let commitShort := if gf.gitDir = "" then "" else gf.commitShort
  let commitMsg := if gf.gitDir = "" then "" else gf.commitMsg
  let gitStatus :=
    if gf.gitDir = "" then ""
    else
      (if gf.porcelain ≠ "" then "*" else "") ++
      (if gf.upstream ≠ "" then
        (let ahead := numOr (strToNumber gf.aheadOut) 0
         let behind := numOr (strToNumber gf.behindOut) 0
         (if ahead > 0 then "↑" ++ qStr ahead else "") ++
         (if behind > 0 then "↓" ++ qStr behind else ""))
       else "")
  let parts := mkLine1Parts modelStr ident.repoName branch subDir gitStatus
    ident.worktreeName cfg.showDir cwd home linesAdded linesRemoved
  let line1 := line1Render parts (cfg.termWidth - cfg.rightPadding)
  let line2 :=
    if commitShort = "" then ""
    else
      let l := cYellow ++ "[" ++ commitShort ++ "]" ++ cReset
      if commitMsg = "" then l
      else
        let hashPrefixLen : ℚ := (commitShort.data.length : ℚ) + 3
        let maxMsgLen : ℚ := max 10 (cfg.termWidth - hashPrefixLen - 3)
        let truncatedMsg :=
          if (commitMsg.data.length : ℚ) > maxMsgLen then
            (⟨commitMsg.data.take (truncQ maxMsgLen).toNat⟩ : String) ++ "..."
          else commitMsg
        l ++ " " ++ truncatedMsg
  let durationMs := numOr (jsToNumber (getPath input "cost.total_duration_ms")) 0
  let durationHours : ℤ := ⌊durationMs / 3600000⌋
  let durationMin : ℤ := ⌊jsMod durationMs 3600000 / 60000⌋
  let costUsd := numOr (jsToNumber (getPath input "cost.total_cost_usd")) 0
  let n := line3Nums input
  let totalBricks : ℚ := max 1 (min (numOr cfg.bricksEnv 30) (max 5 (cfg.termWidth - 35)))
  let usedBricksOpt : Option ℚ :=
    match n.usedTokens with
    | some u => some (usedBricksCalc u n.totalTokens totalBricks)
    | none => if n.totalTokens > 0 then none else some 0
  let freeBricksOpt := jnumSub (some totalBricks) usedBricksOpt
  let pctStr := match n.usagePct with | some q => qStr q | none => "NaN"
  let line3 :=
    "[" ++ strRepeat (jsLoopCount usedBricksOpt) (cCyanNorm ++ "■" ++ cReset) ++
    strRepeat (jsLoopCount freeBricksOpt) (cDimWhite ++ "□" ++ cReset) ++ "]" ++
    " " ++ cBold ++ pctStr ++ "%" ++ cReset ++
    " | " ++ cGreenNorm ++ jnumIntStr n.freeK ++ "k free" ++ cReset ++
    " | " ++ intStr durationHours ++ "h" ++ intStr durationMin ++ "m" ++
    (if costUsd > 0 then " | " ++ cYellowNorm ++ "$" ++ toFixed2 costUsd ++ cReset else "")
  let line4 :=
    if cfg.showLimits then
      let l4 := formatRateLimitLine usageData parseDate now cfg.resetExact
      if l4 = "" then none else some l4
    else none
  { line1 := line1
    line2 := if line2 = "" then none else some line2
    line3 := line3
    line4 := line4 }

/-- The render of one successfully-parsed input snapshot: the model-name
extraction at line 341 is the single place the remainder of `main` can throw
on malformed data; everything after it is total. -/
def render (input : JVal) (cfg : RenderCfg) (gf : GitFacts) (cwd home : String)
    (usageData : JVal) (parseDate : JVal → Option ℚ) (now : ℚ) :
    Except Unit RenderOut :=
  (extractModel input).map
    (fun m => renderCore m input cfg gf cwd home usageData parseDate now)

/-! ### Visible-length accounting predicates

`noEsc s` says `s` contains no raw ESC character (true of model names, git
outputs and paths); `StripsTo s v` says the scanner deletes exactly the color
codes of `s` leaving `v`, stably under any continuation — the invariant that
makes `visibleLen` additive over Line 1's segments.  `CleanSeg` is the
existential form. -/

/-- The string contains no ESC character. -/
def noEsc (s : String) : Prop := ∀ c ∈ s.data, c ≠ '\x1b'

instance noEscDecidable (s : String) : Decidable (noEsc s) := by
  unfold noEsc
  infer_instance

/-- Scanning `s ++ r` from the neutral state strips `s` to `v` and continues
with `r` untouched. -/
def StripsTo (s v : String) : Prop :=
  ∀ r : List Char, stripRun .normal (s.data ++ r) = v.data ++ stripRun .normal r

/-- A string the scanner treats compositionally (codes plus ESC-free text). -/
def CleanSeg (s : String) : Prop := ∃ v, StripsTo s v

/-! ### Concrete render scenarios used by the verification -/

/-- A recognizable rate-limit payload as cached by a previous render. -/
def c1Data : JVal := .obj [("five_hour", .obj [("utilization", .num 50)])]

/-- A cache file written at epoch-ms 1000000 holding `c1Data`. -/
def c1Cache : JVal := .obj [("timestamp", .num 1000000), ("data", c1Data)]

/-- Default environment configuration: subdirectory shown, 80 columns, no
right padding, no brick override, exact reset times, limits shown. -/
def defaultCfg : RenderCfg := ⟨true, 80, 0, none, true, true⟩

/-- Git collaborator outputs outside any version-controlled directory. -/
def emptyGit : GitFacts := ⟨"", "", "", "", "", "", "", "", "", ""⟩

/-- A snapshot whose `model.display_name` is a number instead of a string. -/
def c2Input : JVal := .obj [("model", .obj [("display_name", .num 42)])]

/-- The end-to-end scenario snapshot of the specification (§8). -/
def c3Input : JVal := .obj [
  ("model", .obj [("display_name", .str "Sonnet 4.5")]),
  ("context_window", .obj [
    ("context_window_size", .num 200000),
    ("used_percentage", .num 43.5),
    ("remaining_percentage", .num 56.5)]),
  ("cost", .obj [
    ("total_duration_ms", .num 765000),
    ("total_cost_usd", .num 0.87),
    ("total_lines_added", .num 145),
    ("total_lines_removed", .num 23)])]

/-- Line 1 rendered for `c3Input`: model tag, tilde-compressed path, diff
stats; no branch, no status. -/
def c3Line1 : String :=
  cCyan ++ "[Sonnet 4.5]" ++ cReset ++ " " ++ cDim ++ "~/proj" ++ cReset ++
  " | " ++ cGreenNorm ++ "+145" ++ cReset ++ "/" ++ cRedNorm ++ "-23" ++ cReset

/-- Line 3 rendered for `c3Input`: 12 used / 18 free bricks, 43%, 112k free,
0h12m, $0.87. -/
def c3Line3 : String :=
  "[" ++ strRepeat 12 (cCyanNorm ++ "■" ++ cReset) ++
  strRepeat 18 (cDimWhite ++ "□" ++ cReset) ++ "]" ++
  " " ++ cBold ++ "43%" ++ cReset ++ " | " ++ cGreenNorm ++ "112k free" ++ cReset ++
  " | " ++ "0" ++ "h" ++ "12" ++ "m" ++ " | " ++ cYellowNorm ++ "$" ++ "0.87" ++ cReset

end Statusline

namespace Statusline

/-! ### Helper lemmas: visible-length accounting -/

theorem data_append (s t : String) : (s ++ t).data = s.data ++ t.data := rfl

theorem stripsTo_append {s v t w : String} (h1 : StripsTo s v) (h2 : StripsTo t w) :
    StripsTo (s ++ t) (v ++ w) := by
  intro r
  rw [data_append, data_append, List.append_assoc, h1, h2, List.append_assoc]

theorem stripRun_noEsc (l : List Char) (r : List Char) (h : ∀ c ∈ l, c ≠ '\x1b') :
    stripRun .normal (l ++ r) = l ++ stripRun .normal r := by
  induction l with
  | nil => rfl
  | cons c cs ih =>
      have hc : c ≠ '\x1b' := h c (List.mem_cons_self _ _)
      have hcs : ∀ x ∈ cs, x ≠ '\x1b' := fun x hx => h x (List.mem_cons_of_mem _ hx)
      simp only [List.cons_append, stripRun, stStep, if_neg hc]
      exact congrArg (c :: ·) (ih hcs)

theorem stripsTo_noEsc {s : String} (h : noEsc s) : StripsTo s s :=
  fun r => stripRun_noEsc s.data r h

theorem stripRun_body (body : List Char) (acc : List Char) (r : List Char)
    (hb : ∀ c ∈ body, isBodyChar c = true) :
    stripRun (.body acc) (body ++ 'm' :: r) = stripRun .normal r := by
  induction body generalizing acc with
  | nil =>
      show (stStep (.body acc) 'm').1 ++ stripRun (stStep (.body acc) 'm').2 r =
        stripRun .normal r
      have e : stStep (.body acc) 'm' = ([], .normal) := by
        simp only [stStep]
        rw [if_neg (by decide)]
        simp
      rw [e]
      rfl
  | cons c cs ih =>
      have hc : isBodyChar c = true := hb c (List.mem_cons_self _ _)
      simp only [List.cons_append, stripRun, stStep, hc, if_pos]
      exact ih _ (fun x hx => hb x (List.mem_cons_of_mem _ hx))

theorem stripsTo_code (s : String) (body : List Char)
    (hs : s.data = '\x1b' :: '[' :: (body ++ ['m']))
    (hb : ∀ c ∈ body, isBodyChar c = true) : StripsTo s "" := by
  intro r
  rw [hs]
  have e : ('\x1b' :: '[' :: (body ++ ['m'])) ++ r = '\x1b' :: '[' :: (body ++ 'm' :: r) := by
    simp
  rw [e]
  show ((stStep .normal '\x1b').1 ++ stripRun (stStep .normal '\x1b').2
    ('[' :: (body ++ 'm' :: r))) = "".data ++ stripRun .normal r
  simp only [stStep, if_pos rfl, List.nil_append, stripRun]
  norm_num
  exact stripRun_body body [] r hb

theorem stripsTo_empty : StripsTo "" "" := fun _ => rfl

theorem visibleLen_stripsTo {s v : String} (h : StripsTo s v) :
    visibleLen s = v.data.length := by
  have h0 := h []
  rw [List.append_nil] at h0
  unfold visibleLen stripAnsi
  rw [h0]
  show (v.data ++ stripRun .normal []).length = v.data.length
  simp [stripRun, stFlush]

theorem cleanSeg_append {s t : String} (h1 : CleanSeg s) (h2 : CleanSeg t) :
    CleanSeg (s ++ t) := by
  obtain ⟨v, hv⟩ := h1
  obtain ⟨w, hw⟩ := h2
  exact ⟨v ++ w, stripsTo_append hv hw⟩

theorem cleanSeg_noEsc {s : String} (h : noEsc s) : CleanSeg s := ⟨s, stripsTo_noEsc h⟩

theorem cleanSeg_empty : CleanSeg "" := ⟨"", stripsTo_empty⟩

theorem visibleLen_append_clean {s t : String} (h1 : CleanSeg s) (h2 : CleanSeg t) :
    visibleLen (s ++ t) = visibleLen s + visibleLen t := by
  obtain ⟨v, hv⟩ := h1
  obtain ⟨w, hw⟩ := h2
  rw [visibleLen_stripsTo (stripsTo_append hv hw), visibleLen_stripsTo hv,
    visibleLen_stripsTo hw, data_append, List.length_append]

theorem cleanSeg_cReset : CleanSeg cReset := ⟨"", stripsTo_code _ ['0'] (by decide) (by decide)⟩

theorem cleanSeg_cCyan : CleanSeg cCyan :=
  ⟨"", stripsTo_code _ ['1', ';', '3', '6'] (by decide) (by decide)⟩

theorem cleanSeg_cGreen : CleanSeg cGreen :=
  ⟨"", stripsTo_code _ ['1', ';', '3', '2'] (by decide) (by decide)⟩

theorem cleanSeg_cDim : CleanSeg cDim := ⟨"", stripsTo_code _ ['2'] (by decide) (by decide)⟩

theorem cleanSeg_cBlue : CleanSeg cBlue :=
  ⟨"", stripsTo_code _ ['1', ';', '3', '4'] (by decide) (by decide)⟩

theorem cleanSeg_cRed : CleanSeg cRed :=
  ⟨"", stripsTo_code _ ['1', ';', '3', '1'] (by decide) (by decide)⟩

theorem cleanSeg_cGreenNorm : CleanSeg cGreenNorm :=
  ⟨"", stripsTo_code _ ['0', ';', '3', '2'] (by decide) (by decide)⟩

theorem cleanSeg_cRedNorm : CleanSeg cRedNorm :=
  ⟨"", stripsTo_code _ ['0', ';', '3', '1'] (by decide) (by decide)⟩

theorem noEsc_append {s t : String} (h1 : noEsc s) (h2 : noEsc t) : noEsc (s ++ t) := by
  intro c hc
  rw [data_append] at hc
  rcases List.mem_append.mp hc with h | h
  · exact h1 c h
  · exact h2 c h

theorem noEsc_slashNorm {s : String} (h : noEsc s) : noEsc (slashNorm s) := by
  intro c hc
  simp only [slashNorm] at hc
  obtain ⟨a, ha, rfl⟩ := List.mem_map.mp hc
  split
  · decide
  · exact h a ha

theorem noEsc_tildePath {cwd : String} (home : String) (hc : noEsc cwd) :
    noEsc (tildePath cwd home) := by
  simp only [tildePath]
  split
  · intro c hcm
    rcases List.mem_cons.mp hcm with rfl | hm
    · decide
    · exact noEsc_slashNorm hc c (List.mem_of_mem_drop hm)
  · exact noEsc_slashNorm hc

theorem digitCh_ne_esc (n : ℕ) : digitCh n ≠ '\x1b' := by
  unfold digitCh
  split <;> decide

theorem noEsc_natToCharsAux (fuel n : ℕ) : ∀ c ∈ natToCharsAux fuel n, c ≠ '\x1b' := by
  induction fuel generalizing n with
  | zero => intro c hc; cases hc
  | succ fuel ih =>
      intro c hc
      simp only [natToCharsAux] at hc
      split at hc
      · rcases List.mem_singleton.mp hc with rfl
        exact digitCh_ne_esc n
      · rcases List.mem_append.mp hc with h | h
        · exact ih _ c h
        · rcases List.mem_singleton.mp h with rfl
          exact digitCh_ne_esc _

theorem noEsc_natStr (n : ℕ) : noEsc (natStr n) := fun c hc => noEsc_natToCharsAux _ _ c hc

theorem noEsc_intStr (i : ℤ) : noEsc (intStr i) := by
  unfold intStr
  split
  · exact noEsc_append (by decide) (noEsc_natStr _)
  · exact noEsc_natStr _

theorem noEsc_padZeros (len : ℕ) {s : String} (h : noEsc s) : noEsc (padZeros len s) := by
  intro c hc
  simp only [padZeros] at hc
  rcases List.mem_append.mp hc with hm | hm
  · rcases List.eq_of_mem_replicate hm with rfl
    decide
  · exact h c hm

theorem noEsc_replicateZero (n : ℕ) : noEsc ⟨List.replicate n '0'⟩ := by
  intro c hc
  rcases List.eq_of_mem_replicate hc with rfl
  decide

theorem noEsc_qStr (q : ℚ) : noEsc (qStr q) := by
  simp only [qStr]
  repeat' split
  all_goals repeat' apply noEsc_append
  all_goals
    first
      | exact noEsc_natStr _
      | exact noEsc_padZeros _ (noEsc_natStr _)
      | exact noEsc_replicateZero _
      | decide

theorem visibleLen_empty : visibleLen "" = 0 := rfl

theorem visibleLen_ite (b : Bool) (s : String) :
    visibleLen (if b then s else "") = if b then visibleLen s else 0 := by
  cases b <;> rfl

theorem cleanSeg_ite (b : Bool) {s : String} (h : CleanSeg s) :
    CleanSeg (if b then s else "") := by
  cases b
  · exact cleanSeg_empty
  · exact h

theorem cleanSegs_mk (model repoName branch subDir gitStatus worktreeName : String)
    (showDir : Bool) (cwd home : String) (la lr : ℚ)
    (hm : noEsc model) (hr : noEsc repoName) (hb : noEsc branch) (hs : noEsc subDir)
    (hg : noEsc gitStatus) (hw : noEsc worktreeName) (hc : noEsc cwd) :
    CleanSeg (mkLine1Parts model repoName branch subDir gitStatus worktreeName showDir cwd home la lr).line1Core ∧
    CleanSeg (mkLine1Parts model repoName branch subDir gitStatus worktreeName showDir cwd home la lr).worktreeSegment ∧
    CleanSeg (mkLine1Parts model repoName branch subDir gitStatus worktreeName showDir cwd home la lr).branchSegment ∧
    CleanSeg (mkLine1Parts model repoName branch subDir gitStatus worktreeName showDir cwd home la lr).subdirSegment ∧
    CleanSeg (mkLine1Parts model repoName branch subDir gitStatus worktreeName showDir cwd home la lr).gitStatusSegment ∧
    CleanSeg (mkLine1Parts model repoName branch subDir gitStatus worktreeName showDir cwd home la lr).diffSegment := by
  have k1 : CleanSeg "[" := cleanSeg_noEsc (by decide)
  have k2 : CleanSeg "]" := cleanSeg_noEsc (by decide)
  have k3 : CleanSeg " " := cleanSeg_noEsc (by decide)
  have k4 : CleanSeg ":" := cleanSeg_noEsc (by decide)
  have k5 : CleanSeg "(wt:" := cleanSeg_noEsc (by decide)
  have k6 : CleanSeg ")" := cleanSeg_noEsc (by decide)
  have k7 : CleanSeg " | " := cleanSeg_noEsc (by decide)
  have k8 : CleanSeg "+" := cleanSeg_noEsc (by decide)
  have k9 : CleanSeg "/" := cleanSeg_noEsc (by decide)
  have k10 : CleanSeg "-" := cleanSeg_noEsc (by decide)
  have c0 : CleanSeg (cCyan ++ "[" ++ model ++ "]" ++ cReset ++ " ") :=
    cleanSeg_append (cleanSeg_append (cleanSeg_append (cleanSeg_append
      (cleanSeg_append cleanSeg_cCyan k1) (cleanSeg_noEsc hm)) k2) cleanSeg_cReset) k3
  simp only [mkLine1Parts]
  refine ⟨?_, ?_, ?_, ?_, ?_, ?_⟩
  · split_ifs
    · exact cleanSeg_append (cleanSeg_append (cleanSeg_append c0 cleanSeg_cGreen)
        (cleanSeg_noEsc hr)) cleanSeg_cReset
    · exact cleanSeg_append (cleanSeg_append (cleanSeg_append c0 cleanSeg_cDim)
        (cleanSeg_noEsc (noEsc_tildePath home hc))) cleanSeg_cReset
    · exact c0
  · split_ifs
    · exact cleanSeg_append (cleanSeg_append (cleanSeg_append (cleanSeg_append
        cleanSeg_cDim k5) (cleanSeg_noEsc hw)) k6) cleanSeg_cReset
    · exact cleanSeg_empty
  · split_ifs
    · exact cleanSeg_append (cleanSeg_append (cleanSeg_append k4 cleanSeg_cBlue)
        (cleanSeg_noEsc hb)) cleanSeg_cReset
    · exact cleanSeg_empty
  · split_ifs
    · exact cleanSeg_append (cleanSeg_append (cleanSeg_append k3 cleanSeg_cDim)
        (cleanSeg_noEsc hs)) cleanSeg_cReset
    · exact cleanSeg_empty
  · split_ifs
    · exact cleanSeg_append (cleanSeg_append (cleanSeg_append k3 cleanSeg_cRed)
        (cleanSeg_noEsc hg)) cleanSeg_cReset
    · exact cleanSeg_empty
  · split_ifs
    · exact cleanSeg_append (cleanSeg_append (cleanSeg_append (cleanSeg_append
        (cleanSeg_append (cleanSeg_append (cleanSeg_append (cleanSeg_append
          (cleanSeg_append k7 cleanSeg_cGreenNorm) k8) (cleanSeg_noEsc (noEsc_qStr la)))
          cleanSeg_cReset) k9) cleanSeg_cRedNorm) k10) (cleanSeg_noEsc (noEsc_qStr lr)))
        cleanSeg_cReset
    · exact cleanSeg_empty

theorem visibleLen_buildLine1 (p : Line1Parts)
    (h1 : CleanSeg p.line1Core) (h2 : CleanSeg p.worktreeSegment)
    (h3 : CleanSeg p.branchSegment) (h4 : CleanSeg p.subdirSegment)
    (h5 : CleanSeg p.gitStatusSegment) (h6 : CleanSeg p.diffSegment)
    (w s d : Bool) :
    visibleLen (buildLine1 p w s d) =
      visibleLen p.line1Core + (if w then visibleLen p.worktreeSegment else 0) +
      visibleLen p.branchSegment + (if s then visibleLen p.subdirSegment else 0) +
      visibleLen p.gitStatusSegment + (if d then visibleLen p.diffSegment else 0) := by
  have hw' := cleanSeg_ite w h2
  have hs' := cleanSeg_ite s h4
  have hd' := cleanSeg_ite d h6
  unfold buildLine1
  rw [visibleLen_append_clean
      (cleanSeg_append (cleanSeg_append (cleanSeg_append (cleanSeg_append h1 hw') h3) hs') h5) hd',
    visibleLen_append_clean
      (cleanSeg_append (cleanSeg_append (cleanSeg_append h1 hw') h3) hs') h5,
    visibleLen_append_clean (cleanSeg_append (cleanSeg_append h1 hw') h3) hs',
    visibleLen_append_clean (cleanSeg_append h1 hw') h3,
    visibleLen_append_clean h1 hw', visibleLen_ite, visibleLen_ite, visibleLen_ite]

theorem core_le_buildLine1 (p : Line1Parts)
    (h1 : CleanSeg p.line1Core) (h2 : CleanSeg p.worktreeSegment)
    (h3 : CleanSeg p.branchSegment) (h4 : CleanSeg p.subdirSegment)
    (h5 : CleanSeg p.gitStatusSegment) (h6 : CleanSeg p.diffSegment)
    (w s d : Bool) :
    visibleLen (buildLine1 p false false false) ≤ visibleLen (buildLine1 p w s d) := by
  rw [visibleLen_buildLine1 p h1 h2 h3 h4 h5 h6 false false false,
    visibleLen_buildLine1 p h1 h2 h3 h4 h5 h6 w s d]
  simp only [Bool.false_eq_true, if_false]
  split_ifs <;> omega

theorem line1Render_eq (p : Line1Parts) (maxWidth : ℚ) :
    line1Render p maxWidth =
      if (visibleLen (buildLine1 p true true true) : ℚ) > maxWidth then
        if (visibleLen (buildLine1 p true true false) : ℚ) > maxWidth then
          if (visibleLen (buildLine1 p true false false) : ℚ) > maxWidth then
            buildLine1 p false false false
          else buildLine1 p true false false
        else buildLine1 p true true false
      else buildLine1 p true true true := by
  simp only [line1Render]
  split_ifs <;> rfl

/-! ### Helper lemmas: evaluation of the end-to-end scenario -/

theorem c3_line3Nums : line3Nums c3Input =
    ⟨200000, some 43, some 86000, some 112000, some 112⟩ := by
  have g1 : getPath c3Input "context_window.context_window_size" = .num 200000 := rfl
  have g2 : getPath c3Input "context_window.used_percentage" = .num 43.5 := rfl
  have g3 : getPath c3Input "context_window.remaining_percentage" = .num 56.5 := rfl
  simp only [line3Nums, g1, g2, g3, jsToNumber, numOr, isNullish, isEmptyStr, jsFloorQ,
    jsOrQ, jnumSub, jsFloor, Option.map, Line3Nums.mk.injEq]
  norm_num



set_option maxHeartbeats 1000000 in
set_option maxRecDepth 100000 in
theorem c3_renderCore :
    renderCore "Sonnet 4.5" c3Input defaultCfg emptyGit "/home/user/proj" "/home/user"
      .jnull (fun _ => none) 0 = ⟨c3Line1, none, c3Line3, none⟩ := by
  have hla : numOr (jsToNumber (getPath c3Input "cost.total_lines_added")) 0 = 145 := rfl
  have hlr : numOr (jsToNumber (getPath c3Input "cost.total_lines_removed")) 0 = 23 := rfl
  have hdur : numOr (jsToNumber (getPath c3Input "cost.total_duration_ms")) 0 = 765000 := rfl
  have hgc : getPath c3Input "cost.total_cost_usd" = JVal.num 0.87 := rfl
  have hgi : gitIdentity "/home/user/proj" "" "" "" = ⟨"", ""⟩ := rfl
  have hcost : numOr (some (0.87 : ℚ)) 0 = 0.87 := by
    simp only [numOr]
    norm_num
  have hdh : ⌊(765000 : ℚ) / 3600000⌋ = (0 : ℤ) := by norm_num
  have hdm : ⌊jsMod 765000 3600000 / 60000⌋ = (12 : ℤ) := by
    norm_num [jsMod, truncQ]
  have htb : max 1 (min (numOr none 30) (max 5 ((80 : ℚ) - 35))) = (30 : ℚ) := by
    norm_num [numOr]
  have hub : usedBricksCalc 86000 200000 30 = 12 := by
    norm_num [usedBricksCalc]
  have hfb : jnumSub (some 30) (some (12 : ℚ)) = some 18 := by
    simp only [jnumSub]
    norm_num
  have hlc1 : jsLoopCount (some (12 : ℚ)) = 12 := by
    simp only [jsLoopCount]
    have e : ⌈(12 : ℚ)⌉ = (12 : ℤ) := by norm_num
    rw [e]
    decide
  have hlc2 : jsLoopCount (some (18 : ℚ)) = 18 := by
    simp only [jsLoopCount]
    have e : ⌈(18 : ℚ)⌉ = (18 : ℤ) := by norm_num
    rw [e]
    decide
  have hcpos : (0.87 : ℚ) > 0 := by norm_num
  have h87 : ⌊(0.87 : ℚ) * 100 + 1 / 2⌋ = (87 : ℤ) := by norm_num
  have hfix : toFixed2 0.87 = "0.87" := by
    simp only [toFixed2, h87]
    decide
  simp only [renderCore, defaultCfg, emptyGit]
  rw [hgi]
  dsimp only
  rw [hla, hlr, hdur, hgc]
  simp only [jsToNumber]
  rw [hcost, c3_line3Nums]
  dsimp only
  rw [htb, hub, hfb, hlc1, hlc2, hdh, hdm, if_pos hcpos, hfix]
  simp only [ne_eq, not_true_eq_false, false_and, and_false, if_false, if_true,
    ite_true, ite_false, reduceIte]
  rw [line1Render_eq]
  rw [if_neg]
  · decide
  · have hv : visibleLen (buildLine1 (mkLine1Parts "Sonnet 4.5" "" "" "" "" "" true
      "/home/user/proj" "/home/user" 145 23) true true true) = 30 := by decide
    rw [hv]
    norm_num

/-! ### Claim theorems -/

/-- C1 (code_bug evidence): when the rate-limit fetch subprocess times out,
exits non-zero, or produces no stdout (network error), `fetchUsageData`
returns `null` without consulting the stale cache entry on disk — despite the
`catch` comment "API call failed — try stale cache" — because `spawnSync`
reports those failures in its result instead of throwing; only an
unparsable non-empty stdout reaches the `catch` and is rescued from the
stale cache.  Here the cache entry is 10 minutes old (age ≥ TTL) and holds a
recognizable payload. -/
theorem fetch_timeout_ignores_stale :
    (fetchUsageData (.obj []) (some "tok") (some c1Cache) 1600000 .timeout).value
      = .jnull ∧
    (fetchUsageData (.obj []) (some "tok") (some c1Cache) 1600000 .exitNonzero).value
      = .jnull ∧
    (fetchUsageData (.obj []) (some "tok") (some c1Cache) 1600000 .emptyStdout).value
      = .jnull ∧
    (fetchUsageData (.obj []) (some "tok") (some c1Cache) 1600000 .invalidJson).value
      = c1Data ∧
    c1Data ≠ .jnull := by
  refine ⟨?_, ?_, ?_, ?_, by simp [c1Data]⟩ <;>
    simp [fetchUsageData, freshCache, staleCache, getField, lookupField, getPath,
      getPathGo, splitChar, jsTruthy, jsToNumber, CACHE_TTL_MS, c1Cache, c1Data] <;>
    norm_num

/-- C2 counterexample: a snapshot whose `model.display_name` is the number 42
makes the render throw (`(42).replace` is a TypeError), so rendering does not
complete for every successfully-parsed snapshot. -/
theorem render_throws_on_numeric_display_name :
    render c2Input defaultCfg emptyGit "/home/u/proj" "/home/u" .jnull (fun _ => none) 0
      = .error () := by
  rfl

/-- C2 (amended): for every successfully-parsed snapshot whose
`model.display_name` is falsy (absent, null, empty, zero, false) or a string,
the render completes and produces output; the unguarded `.replace` on a
truthy non-string `display_name` is the single exception to the claimed
invariant. -/
theorem render_total_amended (input : JVal) (cfg : RenderCfg) (gf : GitFacts)
    (cwd home : String) (usageData : JVal) (pd : JVal → Option ℚ) (now : ℚ)
    (h : jsTruthy (getPath input "model.display_name") = false ∨
         ∃ s, getPath input "model.display_name" = .str s) :
    ∃ out, render input cfg gf cwd home usageData pd now = .ok out := by
  simp only [render, extractModel]
  rcases h with h | ⟨s, h⟩
  · rw [h]
    exact ⟨_, rfl⟩
  · rw [h]
    by_cases ht : jsTruthy (.str s) = true
    · rw [if_pos ht]
      exact ⟨_, rfl⟩
    · rw [if_neg ht]
      exact ⟨_, rfl⟩

/-- C2 witness: the amended totality theorem at a concrete snapshot. -/
theorem render_total_amended_witness :
    ∃ out, render (.obj [("model", .obj [("display_name", .str "Claude Sonnet 4.5")])])
      defaultCfg emptyGit "/home/u/proj" "/home/u" .jnull (fun _ => none) 0 = .ok out :=
  render_total_amended _ defaultCfg emptyGit "/home/u/proj" "/home/u" .jnull (fun _ => none) 0
    (Or.inr ⟨"Claude Sonnet 4.5", rfl⟩)

/-- C3 counterexample: at the specification's end-to-end snapshot the free
token count shown on Line 3 is 112k, not the claimed 113k (the claim's own
formula floor(200000·56/100)/1000 evaluates to 112). -/
theorem c3_freeK_cex :
    (line3Nums c3Input).freeK = some 112 ∧ (line3Nums c3Input).freeK ≠ some 113 := by
  rw [c3_line3Nums]
  refine ⟨rfl, ?_⟩
  intro h
  have h2 := Option.some.inj h
  omega

/-- C3 (amended): rendering the end-to-end snapshot outside any
version-controlled directory yields Line 1 with the model tag, the
tilde-compressed path and the diff stats (no branch, no status), no Line 2,
Line 3 with 43%, 112k free, duration 0h12m and cost $0.87, and no Line 4. -/
theorem c3_render_correct :
    render c3Input defaultCfg emptyGit "/home/user/proj" "/home/user" .jnull
      (fun _ => none) 0 = .ok ⟨c3Line1, none, c3Line3, none⟩ := by
  have he : extractModel c3Input = .ok "Sonnet 4.5" := rfl
  simp only [render, he, Except.map]
  rw [c3_renderCore]

/-- C4: for clean segment inputs (no raw ESC characters), whenever the core
(model tag + repo identity or path + branch + status) fits in
`termWidth - rightPadding` visible columns, the emitted Line 1 also fits
after degradation; and when even the bare core exceeds the budget, the core
is emitted unmodified with no further truncation. -/
theorem line1_width_budget
    (model repoName branch subDir gitStatus worktreeName cwd home : String)
    (showDir : Bool) (la lr termWidth rightPadding : ℚ)
    (hm : noEsc model) (hr : noEsc repoName) (hb : noEsc branch) (hs : noEsc subDir)
    (hg : noEsc gitStatus) (hw : noEsc worktreeName) (hc : noEsc cwd) :
    ((visibleLen (buildLine1 (mkLine1Parts model repoName branch subDir gitStatus
        worktreeName showDir cwd home la lr) false false false) : ℚ) ≤
        termWidth - rightPadding →
      (visibleLen (line1Render (mkLine1Parts model repoName branch subDir gitStatus
        worktreeName showDir cwd home la lr) (termWidth - rightPadding)) : ℚ) ≤
        termWidth - rightPadding) ∧
    ((visibleLen (buildLine1 (mkLine1Parts model repoName branch subDir gitStatus
        worktreeName showDir cwd home la lr) false false false) : ℚ) >
        termWidth - rightPadding →
      line1Render (mkLine1Parts model repoName branch subDir gitStatus
        worktreeName showDir cwd home la lr) (termWidth - rightPadding) =
      buildLine1 (mkLine1Parts model repoName branch subDir gitStatus
        worktreeName showDir cwd home la lr) false false false) := by
  obtain ⟨h1, h2, h3, h4, h5, h6⟩ :=
    cleanSegs_mk model repoName branch subDir gitStatus worktreeName showDir cwd home
      la lr hm hr hb hs hg hw hc
  constructor
  · intro hfit
    rw [line1Render_eq]
    split_ifs with a1 a2 a3
    · exact hfit
    · exact le_of_not_lt a3
    · exact le_of_not_lt a2
    · exact le_of_not_lt a1
  · intro hbig
    rw [line1Render_eq]
    have m1 := core_le_buildLine1 _ h1 h2 h3 h4 h5 h6 true true true
    have m2 := core_le_buildLine1 _ h1 h2 h3 h4 h5 h6 true true false
    have m3 := core_le_buildLine1 _ h1 h2 h3 h4 h5 h6 true false false
    have q1 := (Nat.cast_le (α := ℚ)).mpr m1
    have q2 := (Nat.cast_le (α := ℚ)).mpr m2
    have q3 := (Nat.cast_le (α := ℚ)).mpr m3
    rw [if_pos (by linarith), if_pos (by linarith), if_pos (by linarith)]

/-- C4 witness: the budget theorem at concrete inputs, in both the fitting
and the overflowing case. -/
theorem line1_width_budget_witness :
    (visibleLen (line1Render (mkLine1Parts "M" "repo" "main" "" "*" "" true
        "/h/u/p" "/h/u" 0 0) (80 - 0)) : ℚ) ≤ 80 - 0 ∧
    line1Render (mkLine1Parts "M" "repo" "main" "" "*" "" true "/h/u/p" "/h/u" 0 0)
        (10 - 0) =
      buildLine1 (mkLine1Parts "M" "repo" "main" "" "*" "" true "/h/u/p" "/h/u" 0 0)
        false false false := by
  have e : visibleLen (buildLine1 (mkLine1Parts "M" "repo" "main" "" "*" "" true
      "/h/u/p" "/h/u" 0 0) false false false) = 15 := by decide
  constructor
  · refine (line1_width_budget "M" "repo" "main" "" "*" "" "/h/u/p" "/h/u" true 0 0 80 0
      (by decide) (by decide) (by decide) (by decide) (by decide) (by decide) (by decide)).1 ?_
    rw [e]
    norm_num
  · refine (line1_width_budget "M" "repo" "main" "" "*" "" "/h/u/p" "/h/u" true 0 0 10 0
      (by decide) (by decide) (by decide) (by decide) (by decide) (by decide) (by decide)).2 ?_
    rw [e]
    norm_num

/-- C5: the Line 1 degradation is deterministic and strictly ordered — the
emitted line is the first of full, diff-dropped, diff+subdir-dropped,
diff+subdir+worktree-dropped (the core) that fits the budget; every emitted
line is `buildLine1` at some flag triple where a dropped subdirectory implies
a dropped diff and a dropped worktree implies a dropped subdirectory, so a
segment is never dropped while a later-ordered one is retained, and each
drop removes a whole segment. -/
theorem line1_degradation_order (p : Line1Parts) (maxWidth : ℚ) :
    (line1Render p maxWidth =
      if (visibleLen (buildLine1 p true true true) : ℚ) > maxWidth then
        if (visibleLen (buildLine1 p true true false) : ℚ) > maxWidth then
          if (visibleLen (buildLine1 p true false false) : ℚ) > maxWidth then
            buildLine1 p false false false
          else buildLine1 p true false false
        else buildLine1 p true true false
      else buildLine1 p true true true) ∧
    (∃ w s d : Bool, line1Render p maxWidth = buildLine1 p w s d ∧
      (s = true → w = true) ∧ (d = true → s = true)) := by
  refine ⟨line1Render_eq p maxWidth, ?_⟩
  rw [line1Render_eq p maxWidth]
  split_ifs
  · exact ⟨false, false, false, rfl, by simp, by simp⟩
  · exact ⟨true, false, false, rfl, by simp, by simp⟩
  · exact ⟨true, true, false, rfl, by simp, by simp⟩
  · exact ⟨true, true, true, rfl, by simp, by simp⟩

/-- C5 witness: the characterization applied at a concrete segment set that
fits the budget, so nothing is dropped. -/
theorem line1_degradation_order_witness :
    line1Render (mkLine1Parts "M" "repo" "main" "sub" "*" "wt" true "/h" "/h" 5 2) 100 =
      buildLine1 (mkLine1Parts "M" "repo" "main" "sub" "*" "wt" true "/h" "/h" 5 2)
        true true true := by
  rw [(line1_degradation_order
    (mkLine1Parts "M" "repo" "main" "sub" "*" "wt" true "/h" "/h" 5 2) 100).1]
  rw [if_neg]
  have hv : visibleLen (buildLine1
      (mkLine1Parts "M" "repo" "main" "sub" "*" "wt" true "/h" "/h" 5 2)
      true true true) = 34 := by decide
  rw [hv]
  norm_num

/-- C6: a cache entry written with a (truthy) timestamp `t` and read at `now`
with `now - t` below the 5-minute TTL is returned as the identical JSON value
and no fetch subprocess is spawned, whatever the network oracle would have
answered. -/
theorem cache_fresh_hit (input : JVal) (tok : String) (t now : ℚ) (d : JVal)
    (outcome : FetchOutcome)
    (hmock : jsTruthy (getPath input "_mock_rate_limits") = false)
    (ht : t ≠ 0) (hfresh : now - t < CACHE_TTL_MS) :
    fetchUsageData input (some tok) (some (.obj [("timestamp", .num t), ("data", d)]))
      now outcome
      = ⟨d, false, some (.obj [("timestamp", .num t), ("data", d)])⟩ := by
  simp only [fetchUsageData]
  rw [hmock]
  simp [freshCache, getField, lookupField, jsTruthy, jsToNumber, ht, hfresh]

/-- C6 witness: a fresh cache hit at concrete values returns the stored
payload without a network call. -/
theorem cache_fresh_hit_witness :
    fetchUsageData (.obj []) (some "tok")
      (some (.obj [("timestamp", .num 1000), ("data", .str "payload")])) 2000 .timeout
      = ⟨.str "payload", false,
         some (.obj [("timestamp", .num 1000), ("data", .str "payload")])⟩ :=
  cache_fresh_hit (.obj []) "tok" 1000 2000 (.str "payload") .timeout
    (by decide) (by norm_num) (by norm_num [CACHE_TTL_MS])

/-- C7: for 0 ≤ usedTokens ≤ totalTokens with totalTokens > 0 the brick
counts partition the total (`used + free = totalBricks`) and the used count
stays within [0, totalBricks]; when totalTokens = 0 the used count is 0. -/
theorem brick_partition (usedTokens totalTokens totalBricks : ℚ)
    (h0 : 0 ≤ usedTokens) (h1 : usedTokens ≤ totalTokens) (hb : 0 ≤ totalBricks) :
    (totalTokens > 0 →
      usedBricksCalc usedTokens totalTokens totalBricks +
        freeBricksCalc usedTokens totalTokens totalBricks = totalBricks ∧
      0 ≤ usedBricksCalc usedTokens totalTokens totalBricks ∧
      usedBricksCalc usedTokens totalTokens totalBricks ≤ totalBricks) ∧
    (totalTokens = 0 → usedBricksCalc usedTokens totalTokens totalBricks = 0) := by
  constructor
  · intro ht
    refine ⟨by unfold freeBricksCalc; ring, ?_, ?_⟩
    · unfold usedBricksCalc
      rw [if_pos ht]
      have hnn : (0 : ℚ) ≤ usedTokens * totalBricks / totalTokens :=
        div_nonneg (mul_nonneg h0 hb) ht.le
      exact_mod_cast Int.floor_nonneg.mpr hnn
    · unfold usedBricksCalc
      rw [if_pos ht]
      have hle : usedTokens * totalBricks / totalTokens ≤ totalBricks := by
        rw [div_le_iff₀ ht]
        nlinarith [mul_le_mul_of_nonneg_right h1 hb]
      exact le_trans (Int.floor_le _) hle
  · intro ht
    unfold usedBricksCalc
    rw [if_neg (by simp [ht])]

/-- C7 witness: the partition identity at the end-to-end scenario numbers. -/
theorem brick_partition_witness :
    usedBricksCalc 86000 200000 30 + freeBricksCalc 86000 200000 30 = 30 :=
  ((brick_partition 86000 200000 30 (by norm_num) (by norm_num) (by norm_num)).1
    (by norm_num)).1

/-- C8: the utilization gradient is an 11-stop table whose chosen index is
monotone in the percentage; 0 maps to the most ample stop (color 46) and 100
to the most critical stop (color 196); every input below 0 or above 100 is
clamped to the corresponding boundary stop. -/
theorem gradient_props :
    (∀ p q : ℚ, p ≤ q → colorIdx p ≤ colorIdx q) ∧
    colorIdx 0 = 0 ∧ colorIdx 100 = 10 ∧ gradient.length = 11 ∧
    getColorForUtilization (some 0) = "\x1b[38;5;46m" ∧
    getColorForUtilization (some 100) = "\x1b[38;5;196m" ∧
    (∀ p : ℚ, p ≤ 0 → getColorForUtilization (some p) = "\x1b[38;5;46m") ∧
    (∀ p : ℚ, 100 ≤ p → getColorForUtilization (some p) = "\x1b[38;5;196m") := by
  have hlen : gradient.length = 11 := by decide
  have mono : ∀ p q : ℚ, p ≤ q → colorIdx p ≤ colorIdx q := by
    intro p q h
    simp only [colorIdx]
    refine min_le_min ?_ le_rfl
    apply Int.floor_le_floor
    have h1 : max 0 (min 100 p) ≤ max 0 (min 100 q) :=
      max_le_max le_rfl (min_le_min le_rfl h)
    linarith
  have c0 : colorIdx 0 = 0 := by norm_num [colorIdx, gradient]
  have c100 : colorIdx 100 = 10 := by norm_num [colorIdx, gradient]
  have clow : ∀ p : ℚ, p ≤ 0 → colorIdx p = 0 := by
    intro p hp
    simp only [colorIdx]
    rw [min_eq_right (le_trans hp (by norm_num)), max_eq_left hp]
    norm_num [gradient]
  have chigh : ∀ p : ℚ, 100 ≤ p → colorIdx p = 10 := by
    intro p hp
    simp only [colorIdx]
    rw [min_eq_left hp]
    norm_num [gradient]
  refine ⟨mono, c0, c100, hlen, ?_, ?_, ?_, ?_⟩
  · simp only [getColorForUtilization, c0]; decide
  · simp only [getColorForUtilization, c100]; decide
  · intro p hp; simp only [getColorForUtilization, clow p hp]; decide
  · intro p hp; simp only [getColorForUtilization, chigh p hp]; decide

/-- C8 witness: monotonicity and clamping at concrete percentages. -/
theorem gradient_props_witness :
    colorIdx 25 ≤ colorIdx 80 ∧
    getColorForUtilization (some (-5)) = "\x1b[38;5;46m" ∧
    getColorForUtilization (some 150) = "\x1b[38;5;196m" :=
  ⟨gradient_props.1 25 80 (by norm_num),
   gradient_props.2.2.2.2.2.2.1 (-5) (by norm_num),
   gradient_props.2.2.2.2.2.2.2 150 (by norm_num)⟩

/-- C9: inside a version-controlled tree, when the resolved git-dir and
git-common-dir differ the render reports a linked worktree — the worktree
display fact is the repo top-level's basename and the repo name becomes the
basename of the parent of the resolved common dir; when they coincide, no
worktree fact is produced and the repo name stays the top-level basename. -/
theorem worktree_detection (cwd gitDir toplevel commonDir : String)
    (hgit : gitDir ≠ "") (hcommon : commonDir ≠ "") :
    (posixResolve cwd gitDir ≠ posixResolve cwd commonDir →
      gitIdentity cwd gitDir toplevel commonDir =
        ⟨posixBasename (posixDirname (posixResolve cwd commonDir)),
         if toplevel = "" then "" else posixBasename toplevel⟩) ∧
    (posixResolve cwd gitDir = posixResolve cwd commonDir →
      gitIdentity cwd gitDir toplevel commonDir =
        ⟨if toplevel = "" then "" else posixBasename toplevel, ""⟩) := by
  constructor
  · intro hne
    simp [gitIdentity, hgit, hcommon, hne]
  · intro heq
    simp [gitIdentity, hgit, hcommon, heq]

/-- C9 witness: a linked-worktree layout and a plain-repository layout. -/
theorem worktree_detection_witness :
    gitIdentity "/home/u/wt" "/home/u/main/.git/worktrees/wt" "/home/u/wt" "/home/u/main/.git"
      = ⟨"main", "wt"⟩ ∧
    gitIdentity "/r/repo" ".git" "/r/repo" ".git" = ⟨"repo", ""⟩ := by
  constructor
  · have h := (worktree_detection "/home/u/wt" "/home/u/main/.git/worktrees/wt" "/home/u/wt"
      "/home/u/main/.git" (by decide) (by decide)).1 (by decide)
    rw [h]; decide
  · have h := (worktree_detection "/r/repo" ".git" "/r/repo" ".git"
      (by decide) (by decide)).2 (by decide)
    rw [h]; decide

/-- C10: `formatResetTime` is total, returns "0m" for non-positive deltas
and the empty string for a missing or empty timestamp; in exact mode a whole
number of hours or days renders as a single unit ("2h", "2d"), the two-unit
forms ("1h30m", "2d5h") appearing only when the minor unit is positive. -/
theorem formatResetTime_props (pd : JVal → Option ℚ) (now : ℚ) (ex : Bool) :
    formatResetTime .undefined pd now ex = "" ∧
    formatResetTime (.str "") pd now ex = "" ∧
    (∀ v t, jsTruthy v = true → pd v = some t → t - now ≤ 0 →
      formatResetTime v pd now ex = "0m") ∧
    (∀ v t, jsTruthy v = true → pd v = some t → 0 < t - now →
      ((60 ≤ ⌊(t - now) / 60000⌋ → ⌊(t - now) / 60000⌋ / 60 < 24 →
          ⌊(t - now) / 60000⌋ % 60 = 0 →
        formatResetTime v pd now true = intStr (⌊(t - now) / 60000⌋ / 60) ++ "h") ∧
       (60 ≤ ⌊(t - now) / 60000⌋ → ⌊(t - now) / 60000⌋ / 60 < 24 →
          0 < ⌊(t - now) / 60000⌋ % 60 →
        formatResetTime v pd now true =
          intStr (⌊(t - now) / 60000⌋ / 60) ++ "h" ++
            intStr (⌊(t - now) / 60000⌋ % 60) ++ "m") ∧
       (24 ≤ ⌊(t - now) / 60000⌋ / 60 → ⌊(t - now) / 60000⌋ / 60 % 24 = 0 →
        formatResetTime v pd now true = intStr (⌊(t - now) / 60000⌋ / 60 / 24) ++ "d") ∧
       (24 ≤ ⌊(t - now) / 60000⌋ / 60 → 0 < ⌊(t - now) / 60000⌋ / 60 % 24 →
        formatResetTime v pd now true =
          intStr (⌊(t - now) / 60000⌋ / 60 / 24) ++ "d" ++
            intStr (⌊(t - now) / 60000⌋ / 60 % 24) ++ "h"))) := by
  refine ⟨by simp [formatResetTime, jsTruthy], by simp [formatResetTime, jsTruthy], ?_, ?_⟩
  · intro v t hv hpd hle
    simp [formatResetTime, hv, hpd, hle]
  · intro v t hv hpd hpos
    have hne : ¬ (t - now ≤ 0) := by linarith
    refine ⟨?_, ?_, ?_, ?_⟩
    · intro h1 h2 h3
      simp [formatResetTime, hv, hpd, hne]
      rw [if_neg (by omega : ¬ (⌊(t - now) / 60000⌋ < 60)), if_pos h2,
        if_neg (by omega : ¬ (0 < ⌊(t - now) / 60000⌋ % 60))]
    · intro h1 h2 h3
      simp [formatResetTime, hv, hpd, hne]
      rw [if_neg (by omega : ¬ (⌊(t - now) / 60000⌋ < 60)), if_pos h2, if_pos h3]
    · intro h1 h2
      simp [formatResetTime, hv, hpd, hne]
      rw [if_neg (by omega : ¬ (⌊(t - now) / 60000⌋ < 60)),
        if_neg (by omega : ¬ (⌊(t - now) / 60000⌋ / 60 < 24)),
        if_neg (by omega : ¬ (0 < ⌊(t - now) / 60000⌋ / 60 % 24))]
    · intro h1 h2
      simp [formatResetTime, hv, hpd, hne]
      rw [if_neg (by omega : ¬ (⌊(t - now) / 60000⌋ < 60)),
        if_neg (by omega : ¬ (⌊(t - now) / 60000⌋ / 60 < 24)), if_pos h2]

/-- C10 witness: the exact-mode forms at concrete deltas. -/
theorem formatResetTime_props_witness :
    formatResetTime (.str "soon") (fun _ => some 5400000) 0 true = "1h30m" ∧
    formatResetTime (.str "later") (fun _ => some 7200000) 0 true = "2h" ∧
    formatResetTime (.str "past") (fun _ => some 100) 200 true = "0m" ∧
    formatResetTime (.str "") (fun _ => some 100) 0 true = "" := by
  refine ⟨?_, ?_, ?_,
    ((formatResetTime_props (fun _ => some 100) 0 true).2.1)⟩
  · have h := ((formatResetTime_props (fun _ => some 5400000) 0 true).2.2.2
      (.str "soon") 5400000 (by decide) rfl (by norm_num)).2.1
      (by norm_num) (by norm_num) (by norm_num)
    rw [h]
    have e : ⌊((5400000:ℚ) - 0) / 60000⌋ = 90 := by norm_num
    rw [e]; decide
  · have h := ((formatResetTime_props (fun _ => some 7200000) 0 true).2.2.2
      (.str "later") 7200000 (by decide) rfl (by norm_num)).1
      (by norm_num) (by norm_num) (by norm_num)
    rw [h]
    have e : ⌊((7200000:ℚ) - 0) / 60000⌋ = 120 := by norm_num
    rw [e]; decide
  · exact (formatResetTime_props (fun _ => some 100) 200 true).2.2.1
      (.str "past") 100 (by decide) rfl (by norm_num)

end Statusline
